import Mathlib

/-!
Shallow embedding of the command-line chatbot client in `groq_cli.py`.

The program builds a two-message payload (system prompt loaded from a file,
user message from the CLI), calls the external completion service with
sampling parameters, and renders the answer either as a stream of printed
fragments or as a single bordered panel.  All failures inside the command
body are caught by one try/except and rendered as a single error panel.

The embedding models console output as a list of output items (plain text
prints and rich panels), the filesystem as a function from absoulte paths to
read outcomes, and the vendor SDK as a function from the request payload to a
vendor outcome.  Python string truthiness (the `or` fallbacks in the source)
is modelled explicitly.
-/

namespace GroqCli

/-- One entry of the messages list sent to the completion service. -/
structure Message where
  role : String
  content : String
deriving DecidableEq

/-- The full payload handed to `client.chat.completions.create` in `chat`:
messages, resolved model identifier, sampling parameters, stream flag and the
constant `stop=None` argument.  Temperature and top-p are opaque pass-through
numbers; no arithmetic is ever performed on them, so they are embedded as
rationals. -/
structure ChatRequest where
  messages : List Message
  model : String
  temperature : Rat
  maxTokens : Int
  topP : Rat
  stream : Bool
  stop : Option String
deriving DecidableEq

/-- A rich panel: title, body text and border style. -/
structure Panel where
  title : String
  body : String
  borderStyle : String
deriving DecidableEq

/-- One observable console output item: a plain text print (the printed text
already includes the `end` argument of the print call) or a panel. -/
inductive OutItem where
  | text (s : String)
  | panel (p : Panel)
deriving DecidableEq

/-- Outcome of reading a file: success with its content, a missing file
(Python FileNotFoundError), or any other read failure such as a permission
or decoding error. -/
inductive ReadResult where
  | ok (content : String)
  | fileNotFound
  | otherError (msg : String)
deriving DecidableEq

/-- The well-formed shapes a vendor answer can take: a single completion whose
content may be absent (None), or a finite ordered stream of fragments whose
delta contents may each be absent. -/
inductive VendorPayload where
  | single (content : Option String)
  | stream (chunks : List (Option String))
deriving DecidableEq

/-- Outcome of the network call: a payload, or a raised exception (network,
authentication, missing credential, ...) carrying its message. -/
inductive VendorResult where
  | ok (p : VendorPayload)
  | failure (msg : String)
deriving DecidableEq

/-- Ambient process environment: the directory containing the script file
(`Path(__file__).resolve().parent`), the current working directory of the
process (never consulted by the code), the filesystem and the vendor SDK. -/
structure Env where
  scriptDir : String
  cwd : String
  fs : String → ReadResult
  vendor : ChatRequest → VendorResult

/-- The CLI flag values as they reach the `chat` function body, after click
has parsed and validated them. -/
structure Flags where
  message : String
  model : String
  prompt : String
  streamMode : Bool
  temperature : Rat
  maxTokens : Int
  topP : Rat

/-- The raw alias strings as typed on the command line, before click
validates them against the choice lists. -/
structure RawFlags where
  message : String
  model : String
  prompt : String
  streamMode : Bool
  temperature : Rat
  maxTokens : Int
  topP : Rat

/-- `MODEL_ALIASES` from the source: short alias to vendor model identifier. -/
def MODEL_ALIASES : List (String × String) :=
  [("l3-8", "llama3-8b-8192"),
   ("l3-70", "llama3-70b-8192"),
   ("ge", "gemma-7b-it"),
   ("l2-70", "llama2-70b-4096"),
   ("mi", "mixtral-8x7b-32768")]

/-- `DEFAULT_MODEL` from the source. -/
def DEFAULT_MODEL : String := "l3-70"

/-- `PATH_ALIASES` from the source: short alias to prompt template path. -/
def PATH_ALIASES : List (String × String) :=
  [("def", "./prompts/prompt_default.md"),
   ("cli", "./prompts/cli_helper.md")]

/-- Python dict membership lookup `tbl.get(key)`: the tables are dicts with
unique keys, embedded as association lists. -/
def lookup? (tbl : List (String × String)) (key : String) : Option String :=
  (tbl.find? (fun kv => kv.1 == key)).map (fun kv => kv.2)

/-- Python dict subscript `tbl[key]`: raises KeyError when the key is
absent. -/
def dictIndex (tbl : List (String × String)) (key : String) : Except String String :=
  match lookup? tbl key with
  | some v => Except.ok v
  | none => Except.error ("KeyError: " ++ key)

/-- `get_models()` from the source: the list of model alias keys. -/
def get_models : List String := MODEL_ALIASES.map (fun kv => kv.1)

/-- `get_prompts()` from the source: the list of prompt alias keys. -/
def get_prompts : List String := PATH_ALIASES.map (fun kv => kv.1)

/-- Python `s or d` on strings: the empty string is falsy. -/
def pyOrStr (s d : String) : String := if s = "" then d else s

/-- Python `c or d` where `c` is an optional string (None or a string):
both None and the empty string fall back to `d`. -/
def pyOrOpt (c : Option String) (d : String) : String :=
  match c with
  | none => d
  | some s => pyOrStr s d

/-- Drops one leading `./` from a character list. -/
def dropDotSlash : List Char → List Char
  | '.' :: '/' :: rest => rest
  | l => l

/-- pathlib drops a leading `./` component when a path is constructed. -/
def normalizeRel (p : String) : String := String.mk (dropDotSlash p.data)

/-- pathlib `/` join of an absolute base directory with a relative path. -/
def joinPath (base rel : String) : String := base ++ "/" ++ normalizeRel rel

/-- The warning printed by `read_content` when the file is missing (rich
markup stripped; `console.print` ends the line with a newline). -/
def warnNotFound (path : String) : OutItem :=
  OutItem.text ("File not found: " ++ path ++ "\n")

/-- `read_content` from the source: returns the file text on success; on
FileNotFoundError prints a warning and returns the empty string; any other
exception escapes the function (only FileNotFoundError is caught). -/
def read_content (fs : String → ReadResult) (filePath : String) :
    List OutItem × Except String String :=
  match fs filePath with
  | ReadResult.ok c => ([], Except.ok c)
  | ReadResult.fileNotFound => ([warnNotFound filePath], Except.ok "")
  | ReadResult.otherError m => ([], Except.error m)

/-- click.prompt with a default: an empty entry yields the default, anything
else is returned verbatim. -/
def clickPromptResult (input defaultVal : String) : String :=
  if input = "" then defaultVal else input

/-- `choose_model` from the source: prompt for an alias (empty entry gives
`DEFAULT_MODEL`), then `MODEL_ALIASES.get(alias, MODEL_ALIASES[DEFAULT_MODEL])`.
`DEFAULT_MODEL` is a key of the table, so the inner subscript cannot raise. -/
def choose_model (input : String) : String :=
  let aliasKey := clickPromptResult input DEFAULT_MODEL
  (lookup? MODEL_ALIASES aliasKey).getD ((lookup? MODEL_ALIASES DEFAULT_MODEL).getD "")

/-- ASCII lowercasing of one character, as Python str.lower acts on the
ASCII-only alias strings involved here. -/
def charLower (ch : Char) : Char :=
  if 65 ≤ ch.toNat ∧ ch.toNat ≤ 90 then Char.ofNat (ch.toNat + 32) else ch

/-- Lowercasing of a string, character by character. -/
def strLower (s : String) : String := String.mk (s.data.map charLower)

/-- click.Choice conversion with case_sensitive=False: the entered value is
matched case-insensitively against the choices and normalised to the matching
choice; no match means the invocation is rejected at the parsing boundary. -/
def clickChoiceConvert (choices : List String) (v : String) : Option String :=
  choices.find? (fun c => strLower c == strLower v)

/-- The fragments printed in stream mode: for each chunk the source prints
`chunk.choices[0].delta.content or ""` with `end=""`. -/
def streamOutputs (chunks : List (Option String)) : List OutItem :=
  chunks.map (fun c => OutItem.text (pyOrOpt c ""))

/-- What the source does with the value returned by the completion call,
given the stream flag: stream mode prints the header line then iterates the
chunks; non-stream mode wraps the message content in a titled panel.  A
shape mismatch (iterating a single response, or taking `.choices` of a
stream object) raises, exactly as the Python attribute and iteration
protocols would. -/
def deliver (stream_mode : Bool) (model_name : String) (vr : VendorResult) :
    List OutItem × Except String Unit :=
  match vr with
  | VendorResult.failure m => ([], Except.error m)
  | VendorResult.ok payload =>
    if stream_mode then
      match payload with
      | VendorPayload.stream chunks =>
          (OutItem.text (model_name ++ ":\n") :: streamOutputs chunks, Except.ok ())
      | VendorPayload.single _ =>
          (OutItem.text (model_name ++ ":\n") :: [],
           Except.error "TypeError: object is not iterable")
    else
      match payload with
      | VendorPayload.single c =>
          ([OutItem.panel (Panel.mk ("Chatbot: " ++ model_name) (pyOrOpt c "") "bold magenta")],
           Except.ok ())
      | VendorPayload.stream _ =>
          ([], Except.error "AttributeError: Stream object has no attribute choices")

/-- The request the source builds once the model identifier and the loaded
system prompt text are in hand: two messages (system then user) plus the
sampling parameters, stream flag and `stop=None`. -/
def reqOf (f : Flags) (model_name system_prompt : String) : ChatRequest :=
  ChatRequest.mk
    [Message.mk "system" system_prompt, Message.mk "user" f.message]
    model_name f.temperature f.maxTokens f.topP f.streamMode none

/-- Result of running the body of the try block of `chat`: console outputs,
the payload handed to the vendor (when the call was reached), the prompt file
path that was read (when reached), and either normal completion or the raised
exception. -/
structure TryResult where
  outputs : List OutItem
  request : Option ChatRequest
  pathRead : Option String
  result : Except String Unit
deriving Inhabited

/-- The body of the try block of `chat`, line by line: resolve the model
alias, resolve the prompt alias, join the script directory with the relative
prompt path, load the prompt (`read_content(...) or ""`), build the payload,
call the vendor and deliver the answer. -/
def chatTry (env : Env) (f : Flags) : TryResult :=
  match dictIndex MODEL_ALIASES f.model with
  | Except.error m => TryResult.mk [] none none (Except.error m)
  | Except.ok model_name =>
    match dictIndex PATH_ALIASES f.prompt with
    | Except.error m => TryResult.mk [] none none (Except.error m)
    | Except.ok relPath =>
      let fullPath := joinPath env.scriptDir relPath
      let rc := read_content env.fs fullPath
      match rc.2 with
      | Except.error m => TryResult.mk rc.1 none (some fullPath) (Except.error m)
      | Except.ok content =>
        let req := reqOf f model_name (pyOrStr content "")
        let d := deliver f.streamMode (req.model) (env.vendor req)
        TryResult.mk (rc.1 ++ d.1) (some req) (some fullPath) d.2

/-- The error panel printed by the except clause of `chat`. -/
def errorPanel (m : String) : Panel := Panel.mk "Error" m "red"

/-- Observable result of one run of the `chat` command: everything printed,
the process exit code, the payload submitted to the vendor (if any) and the
prompt file path read (if any). -/
structure RunResult where
  outputs : List OutItem
  exitCode : Nat
  request : Option ChatRequest
  pathRead : Option String
deriving Inhabited

/-- The whole `chat` command body: run the try block; any exception is
caught by the single except clause and rendered as one error panel; the
process then exits normally with code 0 either way. -/
def chat (env : Env) (f : Flags) : RunResult :=
  let t := chatTry env f
  match t.result with
  | Except.ok _ => RunResult.mk t.outputs 0 t.request t.pathRead
  | Except.error m =>
      RunResult.mk (t.outputs ++ [OutItem.panel (errorPanel m)]) 0 t.request t.pathRead

/-- The click-decorated entry point: the model and prompt aliases are first
validated (case-insensitively) against the choice lists; an invalid alias is
rejected at the parsing boundary and the command body never runs (`none`). -/
def runCommand (env : Env) (raw : RawFlags) : Option RunResult :=
  match clickChoiceConvert get_models raw.model, clickChoiceConvert get_prompts raw.prompt with
  | some m, some p =>
      some (chat env (Flags.mk raw.message m p raw.streamMode raw.temperature
        raw.maxTokens raw.topP))
  | _, _ => none

/-- Recognises the error panel produced by the except clause. -/
def isErrorPanel : OutItem → Bool
  | OutItem.panel p => p.title == "Error"
  | OutItem.text _ => false

/-- Number of error panels among the outputs. -/
def countErrorPanels (out : List OutItem) : Nat := (out.filter isErrorPanel).length

/-- Recognises any panel output. -/
def isPanel : OutItem → Bool
  | OutItem.panel _ => true
  | OutItem.text _ => false

/-- Number of panels among the outputs. -/
def countPanels (out : List OutItem) : Nat := (out.filter isPanel).length

/-- The raw text written to the console by a list of output items (panels
render through their own boxes; this collects the plain text prints). -/
def renderedText : List OutItem → String
  | [] => ""
  | OutItem.text s :: rest => s ++ renderedText rest
  | OutItem.panel _ :: rest => renderedText rest

/-- Decidable equality for exception results, used to evaluate the embedding
on closed inputs. -/
instance instDecEqExcept {ε α : Type} [DecidableEq ε] [DecidableEq α] :
    DecidableEq (Except ε α) := fun a b =>
  match a, b with
  | Except.ok x, Except.ok y =>
      if h : x = y then Decidable.isTrue (by rw [h])
      else Decidable.isFalse (by intro hc; injection hc; contradiction)
  | Except.error x, Except.error y =>
      if h : x = y then Decidable.isTrue (by rw [h])
      else Decidable.isFalse (by intro hc; injection hc; contradiction)
  | Except.ok _, Except.error _ => Decidable.isFalse (by intro hc; cases hc)
  | Except.error _, Except.ok _ => Decidable.isFalse (by intro hc; cases hc)

/-! ### Concrete fixtures used to evaluate the theorems on closed inputs -/

/-- A filesystem where the default prompt file under `/app` holds "Hello" and
every other file is missing. -/
def fsHello : String → ReadResult := fun p =>
  if p = "/app/prompts/prompt_default.md" then ReadResult.ok "Hello" else ReadResult.fileNotFound

/-- A filesystem where every file read raises a non-FileNotFoundError
exception (for example a permission error). -/
def fsPermBlocked : String → ReadResult := fun _ => ReadResult.otherError "Permission denied"

/-- A filesystem where every file is missing. -/
def fsAbsent : String → ReadResult := fun _ => ReadResult.fileNotFound

/-- A deterministic mocked vendor answering every request with the single
completion "4". -/
def vendorFour : ChatRequest → VendorResult := fun _ =>
  VendorResult.ok (VendorPayload.single (some "4"))

/-- A deterministic mocked vendor streaming the fragments "Hel", "lo", "!". -/
def vendorStreamHello : ChatRequest → VendorResult := fun _ =>
  VendorResult.ok (VendorPayload.stream [some "Hel", some "lo", some "!"])

/-- A vendor whose every call raises an authentication failure. -/
def vendorAuthFail : ChatRequest → VendorResult := fun _ =>
  VendorResult.failure "Invalid API Key"

/-- Script installed under `/app`, prompt file present, single completion. -/
def envHello : Env := Env.mk "/app" "/home/user" fsHello vendorFour

/-- Script installed under `/app`, prompt file present, streaming vendor. -/
def envStream : Env := Env.mk "/app" "/home/user" fsHello vendorStreamHello

/-- Script installed under `/app`, prompt file present, failing vendor. -/
def envAuthFail : Env := Env.mk "/app" "/home/user" fsHello vendorAuthFail

/-- Script installed under `/app`, prompt file unreadable. -/
def envPermBlocked : Env := Env.mk "/app" "/home/user" fsPermBlocked vendorFour

/-- Script installed under `/app`, prompt file missing. -/
def envAbsent : Env := Env.mk "/app" "/home/user" fsAbsent vendorFour

/-- Flags of the non-streamed spec scenario: message "What is 2+2?", model
alias "l3-8", prompt alias "def", stream off, default sampling values. -/
def flagsDemo : Flags := Flags.mk "What is 2+2?" "l3-8" "def" false 1 1024 1

/-- Flags of the streamed spec scenario: default model alias, stream on. -/
def flagsStream : Flags := Flags.mk "hi" "l3-70" "def" true 1 1024 1

/-- Raw CLI flags with mixed-case aliases, exercising the case-insensitive
choice validation. -/
def rawDemo : RawFlags := RawFlags.mk "hi" "L3-8" "DEF" false 1 1024 1

/-! ### Helper lemmas -/

lemma pyOrStr_empty_default (s : String) : pyOrStr s "" = s := by
  by_cases h : s = "" <;> simp [pyOrStr, h]

lemma dictIndex_ok {tbl : List (String × String)} {k v : String}
    (h : lookup? tbl k = some v) : dictIndex tbl k = Except.ok v := by
  simp [dictIndex, h]

lemma chat_exitCode_zero (env : Env) (f : Flags) : (chat env f).exitCode = 0 := by
  unfold chat
  cases h : (chatTry env f).result <;> simp [h]

lemma chat_request_eq (env : Env) (f : Flags) :
    (chat env f).request = (chatTry env f).request := by
  unfold chat
  cases h : (chatTry env f).result <;> simp [h]

lemma chat_pathRead_eq (env : Env) (f : Flags) :
    (chat env f).pathRead = (chatTry env f).pathRead := by
  unfold chat
  cases h : (chatTry env f).result <;> simp [h]

lemma chatbot_title_ne (m : String) : ("Chatbot: " ++ m) ≠ "Error" := by
  intro h
  have hd : ("Chatbot: ").data ++ m.data = ("Error").data := by
    have h2 := congrArg String.data h
    rw [String.congr_append] at h2
    exact h2
  have hlen := congrArg List.length hd
  rw [List.length_append] at hlen
  have h9 : ("Chatbot: ").data.length = 9 := rfl
  have h5 : ("Error").data.length = 5 := rfl
  omega

lemma chatbot_title_beq_false (m : String) : (("Chatbot: " ++ m) == "Error") = false := by
  cases h : ("Chatbot: " ++ m) == "Error" with
  | false => rfl
  | true => exact absurd (eq_of_beq h) (chatbot_title_ne m)

lemma countErrorPanels_append (a b : List OutItem) :
    countErrorPanels (a ++ b) = countErrorPanels a + countErrorPanels b := by
  simp [countErrorPanels, List.filter_append]

lemma countErrorPanels_streamOutputs (chunks : List (Option String)) :
    countErrorPanels (streamOutputs chunks) = 0 := by
  simp [countErrorPanels, streamOutputs, isErrorPanel]

lemma countErrorPanels_read (fs : String → ReadResult) (p : String) :
    countErrorPanels (read_content fs p).1 = 0 := by
  cases h : fs p <;> simp [read_content, h, countErrorPanels, warnNotFound, isErrorPanel]

lemma countErrorPanels_deliver (s : Bool) (m : String) (vr : VendorResult) :
    countErrorPanels (deliver s m vr).1 = 0 := by
  cases vr with
  | failure msg => rfl
  | ok payload =>
      cases payload with
      | single c =>
          cases s with
          | false =>
              simp [deliver, countErrorPanels, List.filter_cons, isErrorPanel,
                chatbot_title_beq_false]
          | true => rfl
      | stream chunks =>
          cases s with
          | false => rfl
          | true =>
              simpa [deliver, countErrorPanels, List.filter_cons, isErrorPanel]
                using countErrorPanels_streamOutputs chunks

lemma countErrorPanels_chatTry (env : Env) (f : Flags) :
    countErrorPanels (chatTry env f).outputs = 0 := by
  unfold chatTry
  cases hm : dictIndex MODEL_ALIASES f.model with
  | error m => rfl
  | ok model_name =>
      cases hp : dictIndex PATH_ALIASES f.prompt with
      | error m => rfl
      | ok relPath =>
          cases hr : (read_content env.fs (joinPath env.scriptDir relPath)).2 with
          | error m =>
              simp [hr, countErrorPanels_read env.fs (joinPath env.scriptDir relPath)]
          | ok content =>
              simp [hr, countErrorPanels_append, countErrorPanels_read,
                countErrorPanels_deliver]

lemma string_join_cons (s : String) (l : List String) :
    String.join (s :: l) = s ++ String.join l := by
  rw [String.congr_append]
  rw [String.join_eq, String.join_eq]
  simp

lemma renderedText_streamOutputs (chunks : List (Option String)) :
    renderedText (streamOutputs chunks) =
      String.join (chunks.map (fun c => pyOrOpt c "")) := by
  induction chunks with
  | nil => rfl
  | cons c rest ih =>
      rw [List.map_cons, string_join_cons]
      show pyOrOpt c "" ++ renderedText (streamOutputs rest) =
        pyOrOpt c "" ++ String.join (rest.map (fun x => pyOrOpt x ""))
      rw [ih]

lemma chatTry_eq_ok (env : Env) (f : Flags) (model_name relPath content : String)
    (hm : lookup? MODEL_ALIASES f.model = some model_name)
    (hp : lookup? PATH_ALIASES f.prompt = some relPath)
    (hfs : env.fs (joinPath env.scriptDir relPath) = ReadResult.ok content) :
    chatTry env f =
      TryResult.mk
        ((deliver f.streamMode model_name (env.vendor (reqOf f model_name content))).1)
        (some (reqOf f model_name content))
        (some (joinPath env.scriptDir relPath))
        ((deliver f.streamMode model_name (env.vendor (reqOf f model_name content))).2) := by
  unfold chatTry
  rw [dictIndex_ok hm, dictIndex_ok hp]
  simp [read_content, hfs, pyOrStr_empty_default, reqOf]

lemma chatTry_eq_notfound (env : Env) (f : Flags) (model_name relPath : String)
    (hm : lookup? MODEL_ALIASES f.model = some model_name)
    (hp : lookup? PATH_ALIASES f.prompt = some relPath)
    (hfs : env.fs (joinPath env.scriptDir relPath) = ReadResult.fileNotFound) :
    chatTry env f =
      TryResult.mk
        (warnNotFound (joinPath env.scriptDir relPath) ::
          (deliver f.streamMode model_name (env.vendor (reqOf f model_name ""))).1)
        (some (reqOf f model_name ""))
        (some (joinPath env.scriptDir relPath))
        ((deliver f.streamMode model_name (env.vendor (reqOf f model_name ""))).2) := by
  unfold chatTry
  rw [dictIndex_ok hm, dictIndex_ok hp]
  simp [read_content, hfs, pyOrStr, reqOf]

lemma chatTry_eq_othererror (env : Env) (f : Flags) (model_name relPath msg : String)
    (hm : lookup? MODEL_ALIASES f.model = some model_name)
    (hp : lookup? PATH_ALIASES f.prompt = some relPath)
    (hfs : env.fs (joinPath env.scriptDir relPath) = ReadResult.otherError msg) :
    chatTry env f =
      TryResult.mk [] none (some (joinPath env.scriptDir relPath)) (Except.error msg) := by
  unfold chatTry
  rw [dictIndex_ok hm, dictIndex_ok hp]
  simp [read_content, hfs]

lemma chat_outputs_split (env : Env) (f : Flags) :
    (chat env f).outputs =
      (chatTry env f).outputs ++
        (match (chatTry env f).result with
         | Except.ok _ => []
         | Except.error m => [OutItem.panel (errorPanel m)]) := by
  unfold chat
  cases h : (chatTry env f).result <;> simp [h]

/-! ### Claim theorems -/

/-- C1: for every invocation of the chat command whose alias lookups succeed
and whose prompt load completes (the loaded text being possibly empty), the
payload submitted to the completion service is exactly the two-entry message
list — a system role message holding the loaded prompt text unchanged, then
a user role message holding the literal CLI-supplied text — together with the
resolved model identifier, temperature, max tokens, top-p and stream flag. -/
theorem chat_payload_two_messages (env : Env) (f : Flags)
    (model_name relPath loaded : String)
    (hm : lookup? MODEL_ALIASES f.model = some model_name)
    (hp : lookup? PATH_ALIASES f.prompt = some relPath)
    (hr : (read_content env.fs (joinPath env.scriptDir relPath)).2 = Except.ok loaded) :
    (chat env f).request = some (ChatRequest.mk
      [Message.mk "system" loaded, Message.mk "user" f.message]
      model_name f.temperature f.maxTokens f.topP f.streamMode none) := by
  rw [chat_request_eq]
  cases hfs : env.fs (joinPath env.scriptDir relPath) with
  | ok c =>
      simp [read_content, hfs] at hr
      subst hr
      rw [chatTry_eq_ok env f model_name relPath c hm hp hfs]
      rfl
  | fileNotFound =>
      simp [read_content, hfs] at hr
      subst hr
      rw [chatTry_eq_notfound env f model_name relPath hm hp hfs]
      rfl
  | otherError m =>
      simp [read_content, hfs] at hr

/-- Witness for C1: with the prompt file holding "Hello" and the spec demo
flags, the submitted payload is exactly the system message "Hello" followed
by the user message, with the resolved identifier and default parameters. -/
theorem chat_payload_two_messages_witness :
    (chat envHello flagsDemo).request = some (ChatRequest.mk
      [Message.mk "system" "Hello", Message.mk "user" "What is 2+2?"]
      "llama3-8b-8192" 1 1024 1 false none) :=
  chat_payload_two_messages envHello flagsDemo "llama3-8b-8192"
    "./prompts/prompt_default.md" "Hello" rfl rfl (by decide)

/-- C2: in streamed mode, after the header line naming the model, the console
output is exactly the fragments in arrival order, each printed with no added
separator, and the text printed after the header equals the concatenation of
the fragment contents; empty or absent fragment contents are printed as the
empty string rather than raising, and the run completes with no error panel
and exit code 0. -/
theorem chat_stream_prints_fragments_in_order (env : Env) (f : Flags)
    (model_name relPath content : String) (chunks : List (Option String))
    (hm : lookup? MODEL_ALIASES f.model = some model_name)
    (hp : lookup? PATH_ALIASES f.prompt = some relPath)
    (hfs : env.fs (joinPath env.scriptDir relPath) = ReadResult.ok content)
    (hv : ∀ r, env.vendor r = VendorResult.ok (VendorPayload.stream chunks))
    (hs : f.streamMode = true) :
    (chat env f).outputs =
      OutItem.text (model_name ++ ":\n") :: streamOutputs chunks ∧
    renderedText (streamOutputs chunks) =
      String.join (chunks.map (fun c => pyOrOpt c "")) ∧
    countErrorPanels (chat env f).outputs = 0 ∧
    (chat env f).exitCode = 0 := by
  have ht := chatTry_eq_ok env f model_name relPath content hm hp hfs
  rw [hv, hs] at ht
  have hd : deliver true model_name (VendorResult.ok (VendorPayload.stream chunks)) =
      (OutItem.text (model_name ++ ":\n") :: streamOutputs chunks, Except.ok ()) := rfl
  rw [hd] at ht
  refine ⟨?_, renderedText_streamOutputs chunks, ?_, chat_exitCode_zero env f⟩
  · rw [chat_outputs_split, ht]
    simp
  · rw [chat_outputs_split, ht]
    simp [countErrorPanels, List.filter_cons, isErrorPanel, streamOutputs]

/-- Witness for C2: streaming the fragments "Hel", "lo", "!" in order after
the header line for the default model prints exactly "Hello!". -/
theorem chat_stream_prints_fragments_in_order_witness :
    (chat envStream flagsStream).outputs =
      OutItem.text ("llama3-70b-8192" ++ ":\n") ::
        streamOutputs [some "Hel", some "lo", some "!"] ∧
    renderedText (streamOutputs [some "Hel", some "lo", some "!"]) =
      String.join ([some "Hel", some "lo", some "!"].map (fun c => pyOrOpt c "")) ∧
    countErrorPanels (chat envStream flagsStream).outputs = 0 ∧
    (chat envStream flagsStream).exitCode = 0 :=
  chat_stream_prints_fragments_in_order envStream flagsStream "llama3-70b-8192"
    "./prompts/prompt_default.md" "Hello" [some "Hel", some "lo", some "!"]
    rfl rfl (by decide) (fun _ => rfl) rfl

/-- C3: every exception escaping the try body of the chat command — network,
authentication, missing credential, malformed response, or a lookup error —
is rendered as exactly one error panel holding the exception text appended to
whatever was already printed, and the process exits with code 0. -/
theorem chat_error_single_panel_exit_zero (env : Env) (f : Flags) (m : String)
    (h : (chatTry env f).result = Except.error m) :
    (chat env f).exitCode = 0 ∧
    (chat env f).outputs =
      (chatTry env f).outputs ++ [OutItem.panel (errorPanel m)] ∧
    countErrorPanels (chat env f).outputs = 1 := by
  refine ⟨chat_exitCode_zero env f, ?_, ?_⟩
  · rw [chat_outputs_split, h]
  · rw [chat_outputs_split, h, countErrorPanels_append, countErrorPanels_chatTry]
    rfl

/-- Witness for C3: a simulated authentication failure from the vendor ends
with exit code 0 and exactly one error panel holding the exception text. -/
theorem chat_error_single_panel_exit_zero_witness :
    (chat envAuthFail flagsDemo).exitCode = 0 ∧
    (chat envAuthFail flagsDemo).outputs =
      (chatTry envAuthFail flagsDemo).outputs ++
        [OutItem.panel (errorPanel "Invalid API Key")] ∧
    countErrorPanels (chat envAuthFail flagsDemo).outputs = 1 :=
  chat_error_single_panel_exit_zero envAuthFail flagsDemo "Invalid API Key" (by decide)

/-- C4 counterexample: at a concrete unreadable prompt file — a read failing
with a permission error, not FileNotFoundError — the loader prints no warning
and does not return the empty string: the exception escapes it, the chat body
aborts before any payload is submitted, and the run ends in an error panel.
This refutes the claim for the unreadable case. -/
theorem read_content_unreadable_cex :
    read_content fsPermBlocked "/app/prompts/prompt_default.md" =
      ([], Except.error "Permission denied") ∧
    (chat envPermBlocked flagsDemo).request = none ∧
    (chat envPermBlocked flagsDemo).outputs =
      [OutItem.panel (errorPanel "Permission denied")] :=
  ⟨rfl, rfl, rfl⟩

/-- C4 amended: for every prompt file path whose file is missing (the read
raises FileNotFoundError), the loader reports the warning and returns the
empty string, and the chat flow continues rather than aborting: the payload
is still submitted, with an empty system prompt.  Reads failing for any other
reason (an unreadable file) instead raise out of the loader into the
top-level handler of the chat command. -/
theorem read_content_missing_degrades (env : Env) (f : Flags)
    (model_name relPath : String)
    (hm : lookup? MODEL_ALIASES f.model = some model_name)
    (hp : lookup? PATH_ALIASES f.prompt = some relPath)
    (hfs : env.fs (joinPath env.scriptDir relPath) = ReadResult.fileNotFound) :
    read_content env.fs (joinPath env.scriptDir relPath) =
      ([warnNotFound (joinPath env.scriptDir relPath)], Except.ok "") ∧
    (chat env f).request = some (reqOf f model_name "") := by
  constructor
  · simp [read_content, hfs]
  · rw [chat_request_eq, chatTry_eq_notfound env f model_name relPath hm hp hfs]

/-- Witness for C4 amended: with every file missing, the loader warns and
returns the empty string and the payload is still submitted with an empty
system prompt. -/
theorem read_content_missing_degrades_witness :
    read_content envAbsent.fs (joinPath envAbsent.scriptDir "./prompts/prompt_default.md") =
      ([warnNotFound (joinPath envAbsent.scriptDir "./prompts/prompt_default.md")],
        Except.ok "") ∧
    (chat envAbsent flagsDemo).request = some (reqOf flagsDemo "llama3-8b-8192" "") :=
  read_content_missing_degrades envAbsent flagsDemo "llama3-8b-8192"
    "./prompts/prompt_default.md" rfl rfl rfl

/-- C5: every alias key of the static model table resolves to exactly its
mapped vendor identifier — in particular "l3-70" to "llama3-70b-8192" — and
every alias key of the prompt table resolves to exactly its mapped file
path. -/
theorem alias_tables_resolve_exactly :
    dictIndex MODEL_ALIASES "l3-8" = Except.ok "llama3-8b-8192" ∧
    dictIndex MODEL_ALIASES "l3-70" = Except.ok "llama3-70b-8192" ∧
    dictIndex MODEL_ALIASES "ge" = Except.ok "gemma-7b-it" ∧
    dictIndex MODEL_ALIASES "l2-70" = Except.ok "llama2-70b-4096" ∧
    dictIndex MODEL_ALIASES "mi" = Except.ok "mixtral-8x7b-32768" ∧
    dictIndex PATH_ALIASES "def" = Except.ok "./prompts/prompt_default.md" ∧
    dictIndex PATH_ALIASES "cli" = Except.ok "./prompts/cli_helper.md" :=
  ⟨rfl, rfl, rfl, rfl, rfl, rfl, rfl⟩

/-- C6: a model or prompt alias accepted by the click choice validation is a
key of its table, so the dict lookups inside the chat body cannot fail; an
alias the validation rejects stops the invocation at the parsing boundary,
the command body never runs and no network call is reached. -/
theorem validated_aliases_safe (env : Env) (raw : RawFlags) :
    (∀ m, clickChoiceConvert get_models raw.model = some m →
        (lookup? MODEL_ALIASES m).isSome = true) ∧
    (∀ p, clickChoiceConvert get_prompts raw.prompt = some p →
        (lookup? PATH_ALIASES p).isSome = true) ∧
    (clickChoiceConvert get_models raw.model = none → runCommand env raw = none) ∧
    (clickChoiceConvert get_prompts raw.prompt = none → runCommand env raw = none) := by
  refine ⟨?_, ?_, ?_, ?_⟩
  · intro m hmem
    have hall : ∀ x ∈ get_models, (lookup? MODEL_ALIASES x).isSome = true := by decide
    exact hall m (List.mem_of_find?_eq_some hmem)
  · intro p hmem
    have hall : ∀ x ∈ get_prompts, (lookup? PATH_ALIASES x).isSome = true := by decide
    exact hall p (List.mem_of_find?_eq_some hmem)
  · intro h
    simp [runCommand, h]
  · intro h
    cases hx : clickChoiceConvert get_models raw.model <;> simp [runCommand, h, hx]

/-- Witness for C6: the mixed-case raw aliases "L3-8" and "DEF" are accepted
by the boundary and their normalised keys resolve in the tables. -/
theorem validated_aliases_safe_witness :
    (lookup? MODEL_ALIASES "l3-8").isSome = true ∧
    (lookup? PATH_ALIASES "def").isSome = true :=
  ⟨(validated_aliases_safe envHello rawDemo).1 "l3-8" (by decide),
   (validated_aliases_safe envHello rawDemo).2.1 "def" (by decide)⟩

/-- C7: in non-streamed mode, exactly one panel is rendered, titled with the
resolved model identifier (under the "Chatbot: " prefix), whose body is the
vendor text, the empty string when the vendor returns no content; no error
panel is rendered and the run exits 0. -/
theorem chat_nonstream_single_panel (env : Env) (f : Flags)
    (model_name relPath content : String) (c : Option String)
    (hm : lookup? MODEL_ALIASES f.model = some model_name)
    (hp : lookup? PATH_ALIASES f.prompt = some relPath)
    (hfs : env.fs (joinPath env.scriptDir relPath) = ReadResult.ok content)
    (hv : ∀ r, env.vendor r = VendorResult.ok (VendorPayload.single c))
    (hs : f.streamMode = false) :
    (chat env f).outputs =
      [OutItem.panel (Panel.mk ("Chatbot: " ++ model_name) (pyOrOpt c "") "bold magenta")] ∧
    countPanels (chat env f).outputs = 1 ∧
    countErrorPanels (chat env f).outputs = 0 ∧
    (∃ pre, "Chatbot: " ++ model_name = pre ++ model_name) ∧
    (chat env f).exitCode = 0 := by
  have ht := chatTry_eq_ok env f model_name relPath content hm hp hfs
  rw [hv, hs] at ht
  have hd : deliver false model_name (VendorResult.ok (VendorPayload.single c)) =
      ([OutItem.panel (Panel.mk ("Chatbot: " ++ model_name) (pyOrOpt c "") "bold magenta")],
        Except.ok ()) := rfl
  rw [hd] at ht
  have hout : (chat env f).outputs =
      [OutItem.panel (Panel.mk ("Chatbot: " ++ model_name) (pyOrOpt c "") "bold magenta")] := by
    rw [chat_outputs_split, ht]
    simp
  refine ⟨hout, ?_, ?_, ⟨"Chatbot: ", rfl⟩, chat_exitCode_zero env f⟩
  · rw [hout]
    rfl
  · rw [hout]
    simp [countErrorPanels, List.filter_cons, isErrorPanel, chatbot_title_beq_false]

/-- Witness for C7 at the non-streamed spec scenario: message "What is 2+2?",
model alias "l3-8", a vendor answering "4": exactly one panel titled
"Chatbot: llama3-8b-8192" with body "4". -/
theorem chat_nonstream_single_panel_witness :
    (chat envHello flagsDemo).outputs =
      [OutItem.panel
        (Panel.mk ("Chatbot: " ++ "llama3-8b-8192") (pyOrOpt (some "4") "") "bold magenta")] ∧
    countPanels (chat envHello flagsDemo).outputs = 1 ∧
    countErrorPanels (chat envHello flagsDemo).outputs = 0 ∧
    (∃ pre, "Chatbot: " ++ "llama3-8b-8192" = pre ++ "llama3-8b-8192") ∧
    (chat envHello flagsDemo).exitCode = 0 :=
  chat_nonstream_single_panel envHello flagsDemo "llama3-8b-8192"
    "./prompts/prompt_default.md" "Hello" (some "4") rfl rfl (by decide) (fun _ => rfl) rfl

/-- C8: the chat command is deterministic: two invocations with identical
flag values against the same filesystem and the same deterministic mocked
vendor produce identical run results — in particular byte-identical rendered
output — whatever else differs about the process state (here the working
directory). -/
theorem chat_deterministic_two_runs (d c1 c2 : String) (fs : String → ReadResult)
    (v : ChatRequest → VendorResult) (f : Flags) :
    chat (Env.mk d c1 fs v) f = chat (Env.mk d c2 fs v) f := rfl

/-- Witness for C8 at a concrete pair of runs. -/
theorem chat_deterministic_two_runs_witness :
    chat (Env.mk "/app" "/home/user" fsHello vendorFour) flagsDemo =
      chat (Env.mk "/app" "/tmp" fsHello vendorFour) flagsDemo :=
  chat_deterministic_two_runs "/app" "/home/user" "/tmp" fsHello vendorFour flagsDemo

/-- C9: the interactive model selector returns the mapped identifier for any
entered alias that is a key of the model table, and the identifier of the
default alias "l3-70", namely "llama3-70b-8192", for any entry that is not a
key — including the empty entry — without rejecting or re-prompting. -/
theorem choose_model_fallback_to_default (s : String) :
    (lookup? MODEL_ALIASES s = none → choose_model s = "llama3-70b-8192") ∧
    (∀ v, lookup? MODEL_ALIASES s = some v → choose_model s = v) ∧
    choose_model "" = "llama3-70b-8192" := by
  refine ⟨?_, ?_, rfl⟩
  · intro h
    by_cases hs : s = ""
    · subst hs
      rfl
    · simp [choose_model, clickPromptResult, hs, h]
      rfl
  · intro v hv
    have hs : s ≠ "" := by
      intro h0
      subst h0
      rw [show lookup? MODEL_ALIASES "" = none from rfl] at hv
      cases hv
    simp [choose_model, clickPromptResult, hs, hv]

/-- Witness for C9: an unknown alias falls back to the default identifier and
a known alias resolves to its own identifier. -/
theorem choose_model_fallback_to_default_witness :
    choose_model "unknown" = "llama3-70b-8192" ∧ choose_model "ge" = "gemma-7b-it" :=
  ⟨(choose_model_fallback_to_default "unknown").1 (by decide),
   (choose_model_fallback_to_default "ge").2.1 "gemma-7b-it" (by decide)⟩

/-- C10: the prompt file actually read is exactly the script directory joined
with the relative path mapped by the prompt table, and the run result does
not depend on the working directory of the process. -/
theorem prompt_path_script_relative (env : Env) (f : Flags)
    (model_name relPath : String)
    (hm : lookup? MODEL_ALIASES f.model = some model_name)
    (hp : lookup? PATH_ALIASES f.prompt = some relPath)
    (c : String) :
    (chat env f).pathRead = some (joinPath env.scriptDir relPath) ∧
    chat (Env.mk env.scriptDir c env.fs env.vendor) f = chat env f := by
  constructor
  · rw [chat_pathRead_eq]
    unfold chatTry
    rw [dictIndex_ok hm, dictIndex_ok hp]
    cases hr : (read_content env.fs (joinPath env.scriptDir relPath)).2 <;> simp [hr]
  · cases env with
    | mk d cwd fs v => rfl

/-- Witness for C10: with the script under "/app" and the default prompt
alias, the file read is "/app/prompts/prompt_default.md", and changing the
working directory changes nothing. -/
theorem prompt_path_script_relative_witness :
    (chat envHello flagsDemo).pathRead =
      some (joinPath envHello.scriptDir "./prompts/prompt_default.md") ∧
    chat (Env.mk envHello.scriptDir "/somewhere/else" envHello.fs envHello.vendor) flagsDemo =
      chat envHello flagsDemo :=
  prompt_path_script_relative envHello flagsDemo "llama3-8b-8192"
    "./prompts/prompt_default.md" rfl rfl "/somewhere/else"

end GroqCli
